import Mathlib

/-!
Shallow embedding of the event-source-journal repository: the Journal facade
(src/journal.js), the in-memory adapter (src/adapters/memory.js), the PostgreSQL
adapter (src/adapters/postgresql.js) and the MongoDB adapter
(src/adapters/mongodb.js).  JavaScript numbers that the code ever compares or
stores as event versions are integers, so versions are modelled as `Int`; the
Journal's argument-validation layer, which must distinguish numbers from other
runtime values and detect non-integer numbers, works over a small JS value model
whose numbers are rationals.
-/

/-- Model of the JavaScript runtime values the Journal's validation layer
distinguishes: undefined, null, booleans, (finite) numbers, strings, functions,
arrays, plain objects and custom (class-instance) objects. -/
inductive JSVal where
  | undef
  | null
  | bool (b : Bool)
  | num (q : ℚ)
  | str (s : String)
  | fn
  | arr
  | plainObj
  | customObj
deriving DecidableEq

/-- JavaScript truthiness: undefined, null, false, 0 and "" are falsy. -/
def JSVal.falsy : JSVal → Bool
  | .undef => true
  | .null => true
  | .bool b => !b
  | .num q => q == 0
  | .str s => s == ""
  | _ => false

/-- The JavaScript typeof operator on the modelled values (`typeof null` is
"object"). -/
def JSVal.typeof : JSVal → String
  | .undef => "undefined"
  | .null => "object"
  | .bool _ => "boolean"
  | .num _ => "number"
  | .str _ => "string"
  | .fn => "function"
  | .arr => "object"
  | .plainObj => "object"
  | .customObj => "object"

/-- Array.isArray. -/
def JSVal.isArray : JSVal → Bool
  | .arr => true
  | _ => false

/-- lodash _.isPlainObject: true only for plain associative objects. -/
def JSVal.isPlainObject : JSVal → Bool
  | .plainObj => true
  | _ => false

/-- The test `currentVersion < 0` of journal.js line 180.  In the validation
chain it is only reached once `currentVersion` is known to be a number (the
non-number case was caught one branch earlier), where the JS comparison is the
plain numeric one. -/
def JSVal.isNegNum : JSVal → Bool
  | .num q => decide (q < 0)
  | _ => false

/-- The test `parseInt(currentVersion) !== currentVersion` of journal.js
line 183, reached only for numbers: parseInt truncates toward zero, so it
differs from the value exactly on non-integer numbers. -/
def JSVal.isNonIntegerNum : JSVal → Bool
  | .num q => !q.isInt
  | _ => false

/-- Errors raised by the embedded code: ReferenceError for reads of undeclared
identifiers, TypeError, plain `new Error(message)`, JournalError(code, message)
and AdapterError; the 409 AdapterError carries the `currentVersion` and
`latestVersion` arguments, the 400 refId AdapterError carries the refId. -/
inductive JsError where
  | referenceError (name : String)
  | typeError (message : String)
  | errorMsg (message : String)
  | journalError (code : Int) (message : String)
  | adapterError (code : Int) (message : String) (currentVersion latestVersion : Int)
  | adapterInvalidRefId (code : Int) (message : String) (refId : String)
deriving DecidableEq

/-- JavaScript truthiness of an optionally-passed version number (`Option Int`
models "undefined or an integer number"): undefined and 0 are falsy. -/
def jsFalsyNum : Option Int → Bool
  | none => true
  | some v => v == 0

/-- A stored entry of the in-memory adapter, exactly the object literal built at
memory.js lines 103-109. -/
structure MemEntry where
  event : String
  ref : String
  payload : JSVal
  initiated_by : JSVal
  version : Int
deriving DecidableEq

/-- memory.js getLatestVersionForRef (lines 161-171).  The filter callback is
`storedEntry.ref === refId && storedEntry.version >= fromVersion && storedEntry.version <= toVersion`,
but `fromVersion` and `toVersion` are not declared anywhere in that method's
scope: with `&&` short-circuiting, the read of `fromVersion` (a ReferenceError)
happens exactly when the scan reaches an entry whose ref matches; otherwise the
filter yields [] and the method returns 0. -/
def MemoryAdapter.getLatestVersionForRef (db : List MemEntry) (refId : String) :
    Except JsError Int :=
  if db.any (fun storedEntry => storedEntry.ref == refId) then
    .error (.referenceError "fromVersion")
  else
    .ok 0

/-- memory.js createEventForRef (lines 98-127).  When `currentVersion` is falsy
(absent or 0) the code runs `this.getLatestVersionForRef(refId, connection)`;
the argument `connection` is an undeclared identifier, so evaluating it raises
a ReferenceError before anything is stored.  Otherwise the entry is built with
`version = currentVersion + 1` and pushed unless some stored entry for the same
ref has `version >= ` the new version, in which case the conflict branch
re-reads the latest version (which itself raises a ReferenceError whenever an
entry for the ref exists) to build the 409 AdapterError. -/
def MemoryAdapter.createEventForRef (db : List MemEntry) (eventName refId : String)
    (eventData userId : JSVal) (currentVersion : Option Int) :
    Except JsError (MemEntry × List MemEntry) :=
  if jsFalsyNum currentVersion then
    .error (.referenceError "connection")
  else
    let cv : Int := currentVersion.getD 0
    let entry : MemEntry :=
      { event := eventName, ref := refId, payload := eventData,
        initiated_by := userId, version := cv + 1 }
    let versionCheckFail : Bool :=
      db.any (fun storedEntry =>
        storedEntry.ref == entry.ref && storedEntry.version ≥ entry.version)
    if !versionCheckFail then
      .ok (entry, db ++ [entry])
    else
      match MemoryAdapter.getLatestVersionForRef db refId with
      | .error e => .error e
      | .ok latestVersion =>
          .error (.adapterError 409 "version conflict" cv latestVersion)

/-- JavaScript `v >= bound` where the bound may be undefined: comparing a number
with undefined is false (NaN comparison). -/
def jsGeOpt (v : Int) : Option Int → Bool
  | none => false
  | some b => decide (v ≥ b)

/-- JavaScript `v <= bound` where the bound may be undefined: comparing a number
with undefined is false (NaN comparison). -/
def jsLeOpt (v : Int) : Option Int → Bool
  | none => false
  | some b => decide (v ≤ b)

/-- memory.js getEventsForRef (lines 142-148): keeps the stored entries whose
ref matches and whose version satisfies `version >= fromVersion && version <= toVersion`
with the JS semantics of comparison against undefined. -/
def MemoryAdapter.getEventsForRef (db : List MemEntry) (refId : String)
    (fromVersion toVersion : Option Int) : List MemEntry :=
  db.filter (fun storedEntry =>
    storedEntry.ref == refId
      && jsGeOpt storedEntry.version fromVersion
      && jsLeOpt storedEntry.version toVersion)

/-- Largest element of a list of versions, or none when the list is empty:
models both SQL `SELECT MAX(version)` (NULL on no rows) and Mongo's
sort-descending-limit-1 read. -/
def maxVersionOfList : List Int → Option Int
  | [] => none
  | v :: vs =>
    match maxVersionOfList vs with
    | none => some v
    | some m => some (max v m)

/-- A row of the PostgreSQL events table, the columns the INSERT of
postgresql.js lines 158-170 writes (the surrogate `_id` and `created_on`
are backend-generated and irrelevant to the claims). -/
structure PgRow where
  version : Int
  ref : String
  event : String
  initiated_by : JSVal
  payload : JSVal
deriving DecidableEq

/-- postgresql.js getLatestVersionForRef (lines 246-266):
`SELECT MAX(version) AS version FROM events WHERE ref=$1`, then
`return version || 0`, so SQL NULL (no rows) and 0 both map to 0. -/
def PostgresSQLAdapter.getLatestVersionForRef (table : List PgRow) (refId : String) : Int :=
  match maxVersionOfList ((table.filter (fun r => r.ref == refId)).map (·.version)) with
  | none => 0
  | some version => if version == 0 then 0 else version

/-- postgresql.js createEventForRef (lines 141-200).  A falsy `currentVersion`
(absent or 0) is resolved by re-reading the latest version for the ref.  The
INSERT is attempted with `version = currentVersion + 1`; the table's
`UNIQUE (version, ref)` constraint rejects it (sqlState 23505) exactly when a
row with that (version, ref) already exists, in which case the adapter re-reads
the latest version and raises the 409 AdapterError with both versions.
Connection pooling and backend failures other than the uniqueness violation are
external I/O and are not modelled. -/
def PostgresSQLAdapter.createEventForRef (table : List PgRow) (eventName refId : String)
    (eventData userId : JSVal) (currentVersion : Option Int) :
    Except JsError (PgRow × List PgRow) :=
  let cv : Int :=
    if jsFalsyNum currentVersion then
      PostgresSQLAdapter.getLatestVersionForRef table refId
    else currentVersion.getD 0
  let row : PgRow :=
    { version := cv + 1, ref := refId, event := eventName,
      initiated_by := if userId.falsy then .null else userId,
      payload := if eventData.falsy then .null else eventData }
  if table.any (fun r => r.version == cv + 1 && r.ref == refId) then
    .error (.adapterError 409 "version conflict" cv
      (PostgresSQLAdapter.getLatestVersionForRef table refId))
  else
    .ok (row, table ++ [row])

/-- A document of the MongoDB events collection as built at mongodb.js lines
161-175: `payload` and `initiated_by` are set only when the corresponding
argument is truthy (`_id` and `created_on` are generated and irrelevant). -/
structure MongoEvent where
  version : Int
  ref : String
  event : String
  payload : Option JSVal
  initiated_by : Option JSVal
deriving DecidableEq

/-- mongodb.js _isValidObjectId (lines 44-55): the string form must match
`/^[a-f0-9]{24}$/i`. -/
def MongoDBAdapter.isValidObjectId (refId : String) : Bool :=
  refId.length == 24 &&
    refId.all (fun c => c.isDigit || ('a' ≤ c && c ≤ 'f') || ('A' ≤ c && c ≤ 'F'))

/-- mongodb.js getLatestVersionForRef (lines 238-241): find by ref, sort by
version descending, limit 1; the head's version, else 0. -/
def MongoDBAdapter.getLatestVersionForRef (coll : List MongoEvent) (refId : String) : Int :=
  match maxVersionOfList ((coll.filter (fun r => r.ref == refId)).map (·.version)) with
  | none => 0
  | some version => version

/-- mongodb.js createEventForRef (lines 152-196).  The refId must look like an
ObjectId; a falsy `currentVersion` (absent or 0) is resolved by re-reading the
latest version; the save fails with E11000 exactly when the collection's unique
index on (ref, version) (mongodb-lib/model.js) is violated, producing the 409
AdapterError with the re-read latest version. -/
def MongoDBAdapter.createEventForRef (coll : List MongoEvent) (eventName refId : String)
    (eventData userId : JSVal) (currentVersion : Option Int) :
    Except JsError (MongoEvent × List MongoEvent) :=
  if !MongoDBAdapter.isValidObjectId refId then
    .error (.adapterInvalidRefId 400 "Invalid refId" refId)
  else
    let cv : Int :=
      if jsFalsyNum currentVersion then
        MongoDBAdapter.getLatestVersionForRef coll refId
      else currentVersion.getD 0
    let newEvent : MongoEvent :=
      { version := cv + 1, ref := refId, event := eventName,
        payload := if eventData.falsy then none else some eventData,
        initiated_by := if userId.falsy then none else some userId }
    if coll.any (fun r => r.ref == refId && r.version == cv + 1) then
      .error (.adapterError 409 "version conflict" cv
        (MongoDBAdapter.getLatestVersionForRef coll refId))
    else
      .ok (newEvent, coll ++ [newEvent])

/-- The arguments the Journal forwards, unchanged, to the adapter's append
operation when every validation check passes. -/
structure AdapterCall where
  eventName : JSVal
  refId : JSVal
  eventData : JSVal
  userId : JSVal
  currentVersion : JSVal
deriving DecidableEq

/-- journal.js createEventForRef (lines 167-194): the validation chain; a
returned AdapterCall is the delegation to the adapter with the arguments
forwarded unchanged, so an error value means the adapter's append was never
invoked. -/
def Journal.createEventForRefValidated (connected : Bool)
    (eventName refId eventData userId currentVersion : JSVal) :
    Except JsError AdapterCall :=
  if !connected then
    .error (.journalError 500 "Journal has not been initialized")
  else if eventName.falsy then
    .error (.journalError 400 "Missing eventName")
  else if eventName.typeof != "string" then
    .error (.journalError 400 "Invalid eventName")
  else if currentVersion != JSVal.undef && currentVersion.typeof != "number" then
    .error (.journalError 400 "currentVersion must be a number")
  else if currentVersion != JSVal.undef && currentVersion.isNegNum then
    .error (.journalError 400 "currentVersion must be a positive number")
  else if currentVersion != JSVal.undef && currentVersion.isNonIntegerNum then
    .error (.journalError 400 "currentVersion must be an integer")
  else if eventData.typeof == "function" then
    .error (.journalError 400 "eventData cannot be a function")
  else if !eventData.isArray && eventData.typeof == "object" && !eventData.isPlainObject then
    .error (.journalError 400 "eventData cannot be a custom object")
  else
    .ok ⟨eventName, refId, eventData, userId, currentVersion⟩

/-- The validation checks of the Journal's append operation in the order the
spec states them — not-connected, missing name, non-string name, non-number
version, negative version, non-integer version, function payload,
non-plain-object payload — each paired with the error it raises. -/
def createEventChecks (connected : Bool)
    (eventName eventData currentVersion : JSVal) : List (Bool × JsError) :=
  [ (!connected, .journalError 500 "Journal has not been initialized"),
    (eventName.falsy, .journalError 400 "Missing eventName"),
    (eventName.typeof != "string", .journalError 400 "Invalid eventName"),
    (currentVersion != JSVal.undef && currentVersion.typeof != "number",
      .journalError 400 "currentVersion must be a number"),
    (currentVersion != JSVal.undef && currentVersion.isNegNum,
      .journalError 400 "currentVersion must be a positive number"),
    (currentVersion != JSVal.undef && currentVersion.isNonIntegerNum,
      .journalError 400 "currentVersion must be an integer"),
    (eventData.typeof == "function", .journalError 400 "eventData cannot be a function"),
    (!eventData.isArray && eventData.typeof == "object" && !eventData.isPlainObject,
      .journalError 400 "eventData cannot be a custom object") ]

/-- Runs an ordered list of checks: the first failing check's error wins, and
only when none fails is the adapter call produced. -/
def runChecks (checks : List (Bool × JsError)) (call : AdapterCall) :
    Except JsError AdapterCall :=
  match checks with
  | [] => .ok call
  | (b, e) :: rest => if b then .error e else runChecks rest call

/-- journal.js getEventsForRef (lines 208-223) composed with the memory
adapter's getEventsForRef.  Bounds are modelled as "undefined or an integer
number" (`Option Int`); the `typeof !== 'number'` guards of lines 212-217,
which cannot fire on such inputs, are therefore not representable, and the
remaining checks are the not-connected gate and the inverted-range gate. -/
def Journal.getEventsForRefMemory (connected : Bool) (db : List MemEntry)
    (refId : String) (fromVersion toVersion : Option Int) :
    Except JsError (List MemEntry) :=
  if !connected then
    .error (.journalError 500 "Journal has not been initialized")
  else
    match fromVersion, toVersion with
    | some f, some t =>
      if f > t then
        .error (.journalError 400 "toVersion is less than fromVersion")
      else
        .ok (MemoryAdapter.getEventsForRef db refId fromVersion toVersion)
    | _, _ => .ok (MemoryAdapter.getEventsForRef db refId fromVersion toVersion)

/-- An adapter instance as held in the Journal's private slot: its name, and
the outcome of its closeDatabaseConnection (none = returns normally, some m =
throws an error with message m), which parametrises the disconnect I/O. -/
structure AdapterHandle where
  adapterName : String
  disconnectError : Option String
deriving DecidableEq

/-- The Journal's immutable configuration, set at construction (journal.js
lines 38-52): the configured adapter name and the configured connection
options (opaque here). -/
structure JournalConfig where
  adapterName : String
  dbConnectionOptions : Option String
deriving DecidableEq

/-- The Journal's state: the private config, the private adapter slot
(`privateData.get(this).adapter`) and the public `initialized` flag. -/
structure JournalState where
  config : JournalConfig
  adapter : Option AdapterHandle
  connected : Bool
deriving DecidableEq

/-- journal.js line 7. -/
def validAdapters : List String := ["mongodb", "postgresql", "memory"]

/-- JavaScript String.prototype.toLowerCase on the ASCII adapter names the
Journal deals with, written over the character list so it evaluates by
reduction. -/
def jsToLowerCase (s : String) : String := ⟨s.data.map Char.toLower⟩

/-- journal.js line 101: `(adapter || config.adapterName).toLowerCase()` — a
falsy argument (absent or the empty string) falls back to the configured
name. -/
def resolveAdapterName (s : JournalState) (arg : Option String) : String :=
  jsToLowerCase
    (match arg with
     | some a => if a == "" then s.config.adapterName else a
     | none => s.config.adapterName)

/-- journal.js lines 105-106. -/
def invalidAdapterMessage (name : String) : String :=
  "\"" ++ name ++ "\" is an invalid adapter. Please use one of \"mongodb, postgresql, memory\""

/-- journal.js line 111 (the stray trailing quote is in the source template
literal). -/
def alreadyConnectedMessage (configName : String) : String :=
  "\"" ++ configName ++ "\" has already been initialized\""

/-- journal.js createClient (lines 98-130).  The adapter name is resolved and
checked against the valid set first; only then is the occupied-adapter-slot
check made; only then is the adapter instantiated and connected.  The outcome
of the adapter's createDatabaseConnection is passed in as `connectResult` (for
the memory adapter it always succeeds); a connect failure is rewrapped as a
plain Error and leaves the state unchanged. -/
def Journal.createClient (s : JournalState) (arg : Option String)
    (connectResult : Except String AdapterHandle) :
    Except JsError Unit × JournalState :=
  if !(validAdapters.contains (resolveAdapterName s arg)) then
    (.error (.typeError (invalidAdapterMessage (resolveAdapterName s arg))), s)
  else if s.adapter.isSome then
    (.error (.typeError (alreadyConnectedMessage s.config.adapterName)), s)
  else
    match connectResult with
    | .ok a => (.ok (), { s with adapter := some a, connected := true })
    | .error msg => (.error (.errorMsg msg), s)

/-- journal.js destroyClient (lines 142-150): when the Journal is connected it
first clears the flag, then awaits the adapter's closeDatabaseConnection, then
deletes the adapter slot — so a throwing disconnect propagates with the slot
still occupied.  The third component counts how many times the adapter's
disconnect ran during the call. -/
def Journal.destroyClient (s : JournalState) :
    Except JsError Unit × JournalState × Nat :=
  if s.connected then
    match s.adapter with
    | none =>
      (.error (.typeError "Cannot read closeDatabaseConnection of undefined"),
        { s with connected := false }, 0)
    | some a =>
      match a.disconnectError with
      | some m => (.error (.errorMsg m), { s with connected := false }, 1)
      | none => (.ok (), { s with connected := false, adapter := none }, 1)
  else
    (.ok (), s, 0)

/-- A stored event for ref "ref1" with version 1, the starting history of the
concrete scenarios. -/
def sampleEntry : MemEntry :=
  { event := "Created", ref := "ref1", payload := .undef,
    initiated_by := .undef, version := 1 }

/-- The event a successful second append (expectedVersion 1) would store. -/
def sampleEntry2 : MemEntry :=
  { event := "Updated", ref := "ref1", payload := .undef,
    initiated_by := .undef, version := 2 }

/-- The PostgreSQL row mirroring `sampleEntry`. -/
def samplePgRow : PgRow :=
  { version := 1, ref := "ref1", event := "Created",
    initiated_by := .null, payload := .null }

/-- The PostgreSQL row mirroring `sampleEntry2`. -/
def samplePgRow2 : PgRow :=
  { version := 2, ref := "ref1", event := "Updated",
    initiated_by := .null, payload := .null }

/-- A freshly constructed Journal with the default configuration (journal.js
lines 38-44: adapterName "memory", dbConnectionOptions null). -/
def freshJournal : JournalState :=
  { config := { adapterName := "memory", dbConnectionOptions := none },
    adapter := none, connected := false }

/-- The memory adapter's handle: its closeDatabaseConnection never throws. -/
def memoryHandle : AdapterHandle :=
  { adapterName := "memory", disconnectError := none }

/-- The Journal after a successful createClient("memory") on the fresh one. -/
def connectedJournal : JournalState :=
  (Journal.createClient freshJournal (some "memory") (.ok memoryHandle)).2

/-- A handle whose closeDatabaseConnection throws an error "boom". -/
def failingHandle : AdapterHandle :=
  { adapterName := "memory", disconnectError := some "boom" }

/-- A connected Journal holding the throwing handle. -/
def failingJournal : JournalState :=
  { config := { adapterName := "memory", dbConnectionOptions := none },
    adapter := some failingHandle, connected := true }

/-- The Journal a destroyClient whose disconnect threw leaves behind. -/
def stuckJournal : JournalState := (Journal.destroyClient failingJournal).2.1

/-- Helper: destroyClient on a connected Journal whose disconnect throws
propagates the error with the connected flag cleared, the adapter slot still
occupied, and one disconnect invocation. -/
theorem destroyClient_disconnect_throws (s : JournalState) (a : AdapterHandle) (m : String)
    (hc : s.connected = true) (ha : s.adapter = some a) (hm : a.disconnectError = some m) :
    Journal.destroyClient s = (.error (.errorMsg m), { s with connected := false }, 1) := by
  unfold Journal.destroyClient
  rw [hc, ha]
  simp [hm]

/-- Helper: destroyClient on a connected Journal whose disconnect returns
normally succeeds, clearing the flag and the adapter slot, with one disconnect
invocation. -/
theorem destroyClient_disconnect_ok (s : JournalState) (a : AdapterHandle)
    (hc : s.connected = true) (ha : s.adapter = some a) (hm : a.disconnectError = none) :
    Journal.destroyClient s = (.ok (), { s with connected := false, adapter := none }, 1) := by
  unfold Journal.destroyClient
  rw [hc, ha]
  simp [hm]

/-- Helper: destroyClient on an unconnected Journal is a successful no-op with
no disconnect invocation. -/
theorem destroyClient_noop (s : JournalState) (h : s.connected = false) :
    Journal.destroyClient s = (.ok (), s, 0) := by
  unfold Journal.destroyClient
  rw [h]
  rfl

/-- Helper: whatever the starting state, the Journal destroyClient leaves
behind is unconnected. -/
theorem destroyClient_clears_connected (t : JournalState) :
    ((Journal.destroyClient t).2.1).connected = false := by
  by_cases hc : t.connected
  · cases ha : t.adapter with
    | none =>
      unfold Journal.destroyClient
      rw [hc, ha]
      rfl
    | some a =>
      cases hm : a.disconnectError with
      | none => rw [destroyClient_disconnect_ok t a hc ha hm]
      | some m => rw [destroyClient_disconnect_throws t a m hc ha hm]
  · rw [destroyClient_noop t (by simpa using hc)]
    simpa using hc

/-- Helper: `maxVersionOfList` returns none exactly on the empty list, and a
returned value is a member bounding every element. -/
theorem maxVersionOfList_spec (l : List Int) :
    (maxVersionOfList l = none ↔ l = []) ∧
    ∀ v, maxVersionOfList l = some v → v ∈ l ∧ ∀ x ∈ l, x ≤ v := by
  induction l with
  | nil => exact ⟨by simp [maxVersionOfList], by simp [maxVersionOfList]⟩
  | cons a l ih =>
    constructor
    · simp only [maxVersionOfList]
      cases h : maxVersionOfList l <;> simp
    · intro v hv
      simp only [maxVersionOfList] at hv
      cases h : maxVersionOfList l with
      | none =>
        rw [h] at hv
        obtain rfl : a = v := by simpa using hv
        have hl : l = [] := (ih.1).mp h
        subst hl
        simp
      | some m =>
        rw [h] at hv
        obtain rfl : max a m = v := by simpa using hv
        obtain ⟨hmem, hle⟩ := ih.2 m h
        constructor
        · rcases max_choice a m with hmax | hmax <;> rw [hmax]
          · simp
          · exact List.mem_cons_of_mem a hmem
        · intro x hx
          rcases List.mem_cons.mp hx with rfl | hx
          · exact le_max_left x m
          · exact le_trans (hle x hx) (le_max_right a m)

/-- Helper: the branch `version || 0` of the PostgreSQL latest-version read is
the identity on integers. -/
theorem ite_beq_zero_eq_self (v : Int) : (if v == 0 then 0 else v) = v := by
  by_cases h : v = 0 <;> simp [h]

/-- Supporting fact: the PostgreSQL latest-version read returns 0 when the ref
has no rows, and otherwise one of the ref's stored versions that bounds all of
them — the highest stored version for the ref. -/
theorem pg_latest_version_is_max (table : List PgRow) (refId : String) :
    ((table.filter (fun r => r.ref == refId)) = [] →
      PostgresSQLAdapter.getLatestVersionForRef table refId = 0) ∧
    ((table.filter (fun r => r.ref == refId)) ≠ [] →
      (∃ r ∈ table.filter (fun r => r.ref == refId),
        r.version = PostgresSQLAdapter.getLatestVersionForRef table refId) ∧
      ∀ r ∈ table.filter (fun r => r.ref == refId),
        r.version ≤ PostgresSQLAdapter.getLatestVersionForRef table refId) := by
  constructor
  · intro h
    unfold PostgresSQLAdapter.getLatestVersionForRef
    rw [h]
    rfl
  · intro h
    have hmap : (table.filter (fun r => r.ref == refId)).map (·.version) ≠ [] := by
      simpa using h
    cases hm : maxVersionOfList ((table.filter (fun r => r.ref == refId)).map (·.version)) with
    | none => exact absurd ((maxVersionOfList_spec _).1.mp hm) hmap
    | some v =>
      obtain ⟨hmem, hle⟩ := (maxVersionOfList_spec _).2 v hm
      have hpg : PostgresSQLAdapter.getLatestVersionForRef table refId = v := by
        unfold PostgresSQLAdapter.getLatestVersionForRef
        rw [hm]
        exact ite_beq_zero_eq_self v
      rw [hpg]
      obtain ⟨r, hr, hrv⟩ := List.mem_map.mp hmem
      exact ⟨⟨r, hr, hrv⟩, fun r' hr' => hle _ (List.mem_map_of_mem (·.version) hr')⟩

/-- Supporting fact: the MongoDB latest-version read returns 0 when the ref has
no documents, and otherwise one of the ref's stored versions bounding all of
them. -/
theorem mongo_latest_version_is_max (coll : List MongoEvent) (refId : String) :
    ((coll.filter (fun r => r.ref == refId)) = [] →
      MongoDBAdapter.getLatestVersionForRef coll refId = 0) ∧
    ((coll.filter (fun r => r.ref == refId)) ≠ [] →
      (∃ r ∈ coll.filter (fun r => r.ref == refId),
        r.version = MongoDBAdapter.getLatestVersionForRef coll refId) ∧
      ∀ r ∈ coll.filter (fun r => r.ref == refId),
        r.version ≤ MongoDBAdapter.getLatestVersionForRef coll refId) := by
  constructor
  · intro h
    unfold MongoDBAdapter.getLatestVersionForRef
    rw [h]
    rfl
  · intro h
    have hmap : (coll.filter (fun r => r.ref == refId)).map (·.version) ≠ [] := by
      simpa using h
    cases hm : maxVersionOfList ((coll.filter (fun r => r.ref == refId)).map (·.version)) with
    | none => exact absurd ((maxVersionOfList_spec _).1.mp hm) hmap
    | some v =>
      obtain ⟨hmem, hle⟩ := (maxVersionOfList_spec _).2 v hm
      have hmg : MongoDBAdapter.getLatestVersionForRef coll refId = v := by
        unfold MongoDBAdapter.getLatestVersionForRef
        rw [hm]
      rw [hmg]
      obtain ⟨r, hr, hrv⟩ := List.mem_map.mp hmem
      exact ⟨⟨r, hr, hrv⟩, fun r' hr' => hle _ (List.mem_map_of_mem (·.version) hr')⟩

/-- C1: appending through the connected memory adapter with no explicit
expectedVersion does not assign versions 1..N — it does not succeed even once:
on the fresh store the very first such append evaluates the undeclared
identifier `connection` (memory.js line 100) and rejects with a ReferenceError
instead of storing an event with version 1. -/
theorem c1_memory_unversioned_append_raises :
    MemoryAdapter.createEventForRef [] "Created" "ref1" .undef .undef none =
      .error (.referenceError "connection") := by rfl

/-- C2: with latest stored version 1 and two appends both passing
expectedVersion 1, the first succeeds with version 2 in both the memory and the
PostgreSQL models, and the PostgreSQL adapter fails the second with exactly the
claimed 409 conflict carrying currentVersion 1 and latestVersion 2 — but the
memory adapter's second append, in its conflict branch, raises the
ReferenceError from the undeclared `fromVersion` of getLatestVersionForRef
(memory.js line 163) instead of that 409 AdapterError. -/
theorem c2_conflicting_second_append :
    (MemoryAdapter.createEventForRef [sampleEntry] "Updated" "ref1" .undef .undef (some 1) =
      .ok (sampleEntry2, [sampleEntry, sampleEntry2])) ∧
    (MemoryAdapter.createEventForRef [sampleEntry, sampleEntry2] "Updated" "ref1"
        .undef .undef (some 1) =
      .error (.referenceError "fromVersion")) ∧
    (PostgresSQLAdapter.createEventForRef [samplePgRow] "Updated" "ref1" .undef .undef (some 1) =
      .ok (samplePgRow2, [samplePgRow, samplePgRow2])) ∧
    (PostgresSQLAdapter.createEventForRef [samplePgRow, samplePgRow2] "Updated" "ref1"
        .undef .undef (some 1) =
      .error (.adapterError 409 "version conflict" 1 2)) := by
  exact ⟨rfl, rfl, rfl, rfl⟩

/-- C3: listing through the connected Journal and the memory adapter with both
bounds unset returns the empty list instead of the ref's entire history, and a
single given bound also returns nothing (the version comparison against the
undefined bound is false in JS); only the fully bounded query filters the
history as the claim states. -/
theorem c3_memory_unbounded_listing_empty :
    (Journal.getEventsForRefMemory true [sampleEntry, sampleEntry2] "ref1" none none =
      .ok []) ∧
    (Journal.getEventsForRefMemory true [sampleEntry, sampleEntry2] "ref1" (some 1) none =
      .ok []) ∧
    (Journal.getEventsForRefMemory true [sampleEntry, sampleEntry2] "ref1" (some 1) (some 2) =
      .ok [sampleEntry, sampleEntry2]) := by
  exact ⟨rfl, rfl, rfl⟩

/-- C4: the Journal's append validation runs exactly the claimed checks in the
claimed order — not-connected, missing name, non-string name, non-number
version, negative version, non-integer version, function payload,
non-plain-object payload — with the first failing check's error raised, and the
adapter call is produced only when every check passes. -/
theorem c4_validation_first_failure_wins (connected : Bool)
    (eventName refId eventData userId currentVersion : JSVal) :
    Journal.createEventForRefValidated connected eventName refId eventData userId currentVersion =
      runChecks (createEventChecks connected eventName eventData currentVersion)
        ⟨eventName, refId, eventData, userId, currentVersion⟩ := rfl

/-- C5: the memory adapter's latest-version query does return 0 for a ref with
no stored events, but on a ref that has an event (here version 1) it raises the
ReferenceError from the undeclared `fromVersion`/`toVersion` of its filter
callback (memory.js line 163) instead of returning the highest stored
version. -/
theorem c5_memory_latest_version_raises :
    (MemoryAdapter.getLatestVersionForRef [sampleEntry] "ref1" =
      .error (.referenceError "fromVersion")) ∧
    (MemoryAdapter.getLatestVersionForRef [sampleEntry] "ref2" = .ok 0) := by
  exact ⟨rfl, rfl⟩

/-- C9: in the PostgreSQL and MongoDB adapters an append with expectedVersion 0
is indistinguishable from one with expectedVersion absent — the truthiness test
sends both through the re-read-latest path — and in the memory adapter the two
are also indistinguishable, but there both raise the ReferenceError from the
undeclared `connection` instead of re-reading the latest version (1) and
writing version 2. -/
theorem c9_zero_expected_version_like_absent :
    (∀ (table : List PgRow) (eventName refId : String) (eventData userId : JSVal),
      PostgresSQLAdapter.createEventForRef table eventName refId eventData userId (some 0) =
        PostgresSQLAdapter.createEventForRef table eventName refId eventData userId none) ∧
    (∀ (coll : List MongoEvent) (eventName refId : String) (eventData userId : JSVal),
      MongoDBAdapter.createEventForRef coll eventName refId eventData userId (some 0) =
        MongoDBAdapter.createEventForRef coll eventName refId eventData userId none) ∧
    (MemoryAdapter.createEventForRef [sampleEntry] "Updated" "ref1" .undef .undef (some 0) =
      .error (.referenceError "connection")) ∧
    (MemoryAdapter.createEventForRef [sampleEntry] "Updated" "ref1" .undef .undef none =
      .error (.referenceError "connection")) := by
  exact ⟨fun _ _ _ _ _ => rfl, fun _ _ _ _ _ => rfl, rfl, rfl⟩

/-- Helper: createClient on a Journal whose adapter slot is occupied and whose
resolved adapter name is valid fails with the already-initialized TypeError and
returns the state unchanged. -/
theorem createClient_occupied_valid (s : JournalState) (arg : Option String)
    (connectResult : Except String AdapterHandle) (h : s.adapter.isSome = true)
    (hv : validAdapters.contains (resolveAdapterName s arg) = true) :
    Journal.createClient s arg connectResult =
      (.error (.typeError (alreadyConnectedMessage s.config.adapterName)), s) := by
  unfold Journal.createClient
  rw [hv, h]
  rfl

/-- Helper: createClient on a Journal whose resolved adapter name is invalid
fails with the invalid-adapter TypeError and returns the state unchanged. -/
theorem createClient_occupied_invalid (s : JournalState) (arg : Option String)
    (connectResult : Except String AdapterHandle)
    (hv : validAdapters.contains (resolveAdapterName s arg) = false) :
    Journal.createClient s arg connectResult =
      (.error (.typeError (invalidAdapterMessage (resolveAdapterName s arg))), s) := by
  unfold Journal.createClient
  rw [hv]
  rfl

/-- Helper: createClient on a Journal whose adapter slot is occupied always
fails and leaves the state unchanged, whatever name it passes. -/
theorem createClient_occupied_stuck (s : JournalState) (arg : Option String)
    (connectResult : Except String AdapterHandle) (h : s.adapter.isSome = true) :
    ((Journal.createClient s arg connectResult).2 = s) ∧
    (∃ e, (Journal.createClient s arg connectResult).1 = .error e) := by
  by_cases hv : validAdapters.contains (resolveAdapterName s arg)
  · rw [createClient_occupied_valid s arg connectResult h hv]
    exact ⟨rfl, _, rfl⟩
  · rw [createClient_occupied_invalid s arg connectResult (by simpa using hv)]
    exact ⟨rfl, _, rfl⟩

/-- C6 counterexample: on a Journal whose createClient has succeeded, a second
createClient call naming an unknown adapter fails with the invalid-adapter
TypeError, not the already-initialized one, because createClient checks the
resolved name against the valid set before checking the occupied adapter
slot. -/
theorem c6_counterexample_invalid_name_error :
    ((Journal.createClient freshJournal (some "memory") (.ok memoryHandle)).1 = .ok ()) ∧
    ((Journal.createClient connectedJournal (some "badadapter") (.ok memoryHandle)).1 =
      .error (.typeError (invalidAdapterMessage "badadapter"))) ∧
    JsError.typeError (invalidAdapterMessage "badadapter") ≠
      JsError.typeError (alreadyConnectedMessage connectedJournal.config.adapterName) := by
  refine ⟨rfl, rfl, ?_⟩
  decide

/-- C6 (amended): a second createClient on a Journal whose adapter slot is
occupied fails without touching the state — with a resolved adapter name in the
valid set it fails with the already-initialized TypeError, with a name outside
the set it fails with the invalid-adapter TypeError, and in both cases the
stored adapter, the connected flag and the configuration are returned
unchanged. -/
theorem c6_second_create_client_rejected (s : JournalState) (arg : Option String)
    (connectResult : Except String AdapterHandle) (h : s.adapter.isSome = true) :
    (validAdapters.contains (resolveAdapterName s arg) = true →
      Journal.createClient s arg connectResult =
        (.error (.typeError (alreadyConnectedMessage s.config.adapterName)), s)) ∧
    (validAdapters.contains (resolveAdapterName s arg) = false →
      Journal.createClient s arg connectResult =
        (.error (.typeError (invalidAdapterMessage (resolveAdapterName s arg))), s)) :=
  ⟨fun hv => createClient_occupied_valid s arg connectResult h hv,
    fun hv => createClient_occupied_invalid s arg connectResult hv⟩

/-- C6 witness: on the concretely connected Journal, a second
createClient("memory") fails with the already-initialized TypeError and returns
the state unchanged. -/
theorem c6_second_create_client_rejected_witness :
    connectedJournal.adapter.isSome = true ∧
    Journal.createClient connectedJournal (some "memory") (.ok memoryHandle) =
      (.error (.typeError (alreadyConnectedMessage connectedJournal.config.adapterName)),
        connectedJournal) :=
  ⟨rfl,
    (c6_second_create_client_rejected connectedJournal (some "memory")
      (.ok memoryHandle) rfl).1 rfl⟩

/-- C7: destroyClient on a connected Journal clears the connected flag, invokes
the adapter's disconnect exactly once and then discards the adapter reference;
when the disconnect throws, the thrown error propagates while the Journal is
still left unconnected, and a following destroyClient performs no further
disconnect invocation. -/
theorem c7_destroy_connected (s : JournalState) (a : AdapterHandle)
    (hc : s.connected = true) (ha : s.adapter = some a) :
    (a.disconnectError = none →
      Journal.destroyClient s =
        (.ok (), { s with connected := false, adapter := none }, 1)) ∧
    (∀ m, a.disconnectError = some m →
      Journal.destroyClient s =
        (.error (.errorMsg m), { s with connected := false }, 1)) ∧
    (Journal.destroyClient (Journal.destroyClient s).2.1).2.2 = 0 := by
  refine ⟨fun hm => destroyClient_disconnect_ok s a hc ha hm,
    fun m hm => destroyClient_disconnect_throws s a m hc ha hm, ?_⟩
  rw [destroyClient_noop _ (destroyClient_clears_connected s)]

/-- C7 witness: on the concrete connected Journal whose adapter's disconnect
throws "boom", destroyClient propagates the error, leaves the Journal
unconnected, invoked disconnect once, and a second destroyClient performs no
disconnect invocation. -/
theorem c7_destroy_connected_witness :
    failingJournal.connected = true ∧ failingJournal.adapter = some failingHandle ∧
    Journal.destroyClient failingJournal =
      (.error (.errorMsg "boom"), { failingJournal with connected := false }, 1) ∧
    (Journal.destroyClient (Journal.destroyClient failingJournal).2.1).2.2 = 0 := by
  obtain ⟨-, h2, h3⟩ := c7_destroy_connected failingJournal failingHandle rfl rfl
  exact ⟨rfl, rfl, h2 "boom" rfl, h3⟩

/-- C8: destroyClient on an unconnected Journal succeeds, performs no adapter
call (zero disconnect invocations) and returns the state unchanged — in
particular an empty adapter slot stays empty — and destroyClient is idempotent:
from any state, running it twice leaves the same state as running it once. -/
theorem c8_destroy_noop_and_idempotent (s : JournalState) (h : s.connected = false) :
    Journal.destroyClient s = (.ok (), s, 0) ∧
    ∀ t : JournalState,
      (Journal.destroyClient (Journal.destroyClient t).2.1).2.1 =
        (Journal.destroyClient t).2.1 := by
  refine ⟨destroyClient_noop s h, fun t => ?_⟩
  rw [destroyClient_noop _ (destroyClient_clears_connected t)]

/-- C8 witness: on the concrete never-connected Journal, destroyClient is a
successful no-op with no adapter call, and a double destroy of the connected
Journal equals a single one. -/
theorem c8_destroy_noop_and_idempotent_witness :
    freshJournal.connected = false ∧
    Journal.destroyClient freshJournal = (.ok (), freshJournal, 0) ∧
    (Journal.destroyClient (Journal.destroyClient connectedJournal).2.1).2.1 =
      (Journal.destroyClient connectedJournal).2.1 := by
  obtain ⟨h1, h2⟩ := c8_destroy_noop_and_idempotent freshJournal rfl
  exact ⟨rfl, h1, h2 connectedJournal⟩

/-- C10 counterexample: on the Journal left stuck by a throwing disconnect
(adapter slot still occupied, connected flag cleared), a subsequent
createClient naming an unknown adapter fails with the invalid-adapter
TypeError, not the already-initialized one. -/
theorem c10_counterexample_invalid_name_error :
    stuckJournal.connected = false ∧
    stuckJournal.adapter = some failingHandle ∧
    ((Journal.createClient stuckJournal (some "badadapter") (.ok memoryHandle)).1 =
      .error (.typeError (invalidAdapterMessage "badadapter"))) ∧
    JsError.typeError (invalidAdapterMessage "badadapter") ≠
      JsError.typeError (alreadyConnectedMessage stuckJournal.config.adapterName) := by
  refine ⟨rfl, rfl, rfl, ?_⟩
  decide

/-- C10 (amended): after a destroyClient whose disconnect threw, the Journal
keeps its adapter reference while reporting unconnected, so append and list
validation fail with the not-initialized error, destroyClient is a no-op
preserving the stuck state, every subsequent createClient call fails and leaves
the state unchanged, and the calls resolving to a valid adapter name fail with
the already-initialized error (invalid names fail with the invalid-adapter
error): the Journal is permanently stuck. -/
theorem c10_stuck_after_failed_disconnect (s : JournalState) (a : AdapterHandle) (m : String)
    (hc : s.connected = true) (ha : s.adapter = some a) (hm : a.disconnectError = some m) :
    ((Journal.destroyClient s).1 = .error (.errorMsg m)) ∧
    ((Journal.destroyClient s).2.1.connected = false) ∧
    ((Journal.destroyClient s).2.1.adapter = some a) ∧
    (∀ eventName refId eventData userId currentVersion,
      Journal.createEventForRefValidated (Journal.destroyClient s).2.1.connected
          eventName refId eventData userId currentVersion =
        .error (.journalError 500 "Journal has not been initialized")) ∧
    (∀ db refId fromVersion toVersion,
      Journal.getEventsForRefMemory (Journal.destroyClient s).2.1.connected
          db refId fromVersion toVersion =
        .error (.journalError 500 "Journal has not been initialized")) ∧
    (Journal.destroyClient (Journal.destroyClient s).2.1 =
      (.ok (), (Journal.destroyClient s).2.1, 0)) ∧
    (∀ arg connectResult,
      (Journal.createClient (Journal.destroyClient s).2.1 arg connectResult).2 =
        (Journal.destroyClient s).2.1) ∧
    (∀ arg connectResult, ∃ e,
      (Journal.createClient (Journal.destroyClient s).2.1 arg connectResult).1 = .error e) ∧
    (∀ arg connectResult,
      validAdapters.contains (resolveAdapterName (Journal.destroyClient s).2.1 arg) = true →
      (Journal.createClient (Journal.destroyClient s).2.1 arg connectResult).1 =
        .error (.typeError (alreadyConnectedMessage s.config.adapterName))) := by
  have hd := destroyClient_disconnect_throws s a m hc ha hm
  rw [hd]
  have hsome : ({ s with connected := false } : JournalState).adapter.isSome = true := by
    rw [show ({ s with connected := false } : JournalState).adapter = s.adapter from rfl, ha]
    rfl
  refine ⟨rfl, rfl, by simpa using ha, fun _ _ _ _ _ => rfl, fun _ _ _ _ => rfl,
    destroyClient_noop _ rfl, ?_, ?_, ?_⟩
  · intro arg connectResult
    exact (createClient_occupied_stuck { s with connected := false } arg connectResult hsome).1
  · intro arg connectResult
    exact (createClient_occupied_stuck { s with connected := false } arg connectResult hsome).2
  · intro arg connectResult hv
    rw [createClient_occupied_valid { s with connected := false } arg connectResult hsome hv]

/-- C10 witness: the stuck scenario at the concrete Journal whose disconnect
throws "boom": the destroy propagates the error, the adapter reference is
retained, and a subsequent createClient("memory") fails with the
already-initialized TypeError. -/
theorem c10_stuck_after_failed_disconnect_witness :
    failingJournal.connected = true ∧
    failingJournal.adapter = some failingHandle ∧
    failingHandle.disconnectError = some "boom" ∧
    ((Journal.destroyClient failingJournal).1 = .error (.errorMsg "boom")) ∧
    ((Journal.destroyClient failingJournal).2.1.adapter = some failingHandle) ∧
    ((Journal.createClient (Journal.destroyClient failingJournal).2.1 (some "memory")
        (.ok memoryHandle)).1 =
      .error (.typeError (alreadyConnectedMessage failingJournal.config.adapterName))) := by
  obtain ⟨h1, -, h3, -, -, -, -, -, h9⟩ :=
    c10_stuck_after_failed_disconnect failingJournal failingHandle "boom" rfl rfl rfl
  exact ⟨rfl, rfl, rfl, h1, h3, h9 (some "memory") (.ok memoryHandle) rfl⟩
